import Mathlib

/-!
Shallow embedding of the cart / checkout core of the OneWeekGraphQL
storefront (GraphQL resolvers over a Prisma relational store plus a
Stripe checkout integration).

The relational store is modelled as explicit lists of rows (`DB`);
Prisma calls used by the resolvers (`findUnique`, `create`, `upsert`,
`update` with atomic `increment` / `decrement` / `set`, `delete`) are
embedded as pure functions on that state.  A Prisma call that throws
(`update` / `delete` on a missing row) is embedded as `Option`/`Except`.
JavaScript truthiness (`x || y`, `x ? a : b`) is embedded explicitly:
the number 0, `null`/`undefined` and the empty string are falsy.
The Stripe SDK is an external collaborator and is passed in as a
function parameter where a resolver calls it.
-/

namespace OneWeek

/-- JavaScript `x || y` on numbers: `x` is falsy exactly when it is 0. -/
def jsOrInt (x y : Int) : Int := if x = 0 then y else x

/-- JavaScript truthiness of a nullable string: `null`/`undefined` and `""` are falsy. -/
def strTruthy : Option String → Bool
  | none => false
  | some s => s != ""

/-- JavaScript `input.quantity || 1` where `quantity` is a nullable number:
both an absent quantity and an explicit 0 fall back to 1. -/
def jsQuantityOr1 : Option Int → Int
  | none => 1
  | some n => if n = 0 then 1 else n

/-- Prisma `Cart` row: `model Cart { id String @id }` (items live in their own table). -/
structure Cart where
  id : String
deriving Repr, DecidableEq

/-- Prisma `CartItem` row: composite key `@@id([id, cartId])`, nullable
`description` and `image`. -/
structure CartItem where
  id : String
  name : String
  description : Option String
  price : Int
  quantity : Int
  image : Option String
  cartId : String
deriving Repr, DecidableEq

/-- Inventory product from `lib/products.ts`, the trusted source of prices. -/
structure Product where
  id : String
  slug : String
  title : String
  price : Int
  src : String
  body : String
deriving Repr, DecidableEq

/-- `product_data` of a Stripe checkout line item, as built by the code. -/
structure ProductData where
  name : String
  description : Option String
  images : List String
deriving Repr, DecidableEq

/-- `price_data` of a Stripe checkout line item. -/
structure PriceData where
  currency : String
  unit_amount : Int
  product_data : ProductData
deriving Repr, DecidableEq

/-- A Stripe `Checkout.SessionCreateParams.LineItem` as built by the code. -/
structure LineItem where
  quantity : Int
  price_data : PriceData
deriving Repr, DecidableEq

/-- The line item `validateCartItems` pushes for a cart item once the
matching inventory product is found: quantity, name, description and
image come from the cart item, the unit amount from the inventory product. -/
def lineItemOf (product : Product) (item : CartItem) : LineItem :=
  { quantity := item.quantity
    price_data :=
      { currency := "USD"
        unit_amount := product.price
        product_data :=
          { name := item.name
            description := if strTruthy item.description then item.description else none
            images :=
              match item.image with
              | some img => if img != "" then [img] else []
              | none => [] } } }

/-- `validateCartItems` from `lib/cart.ts`: walks the cart items in order,
throws (modelled as `Except.error`) at the first item whose id matches no
inventory product, otherwise collects one line item per cart item. -/
def validateCartItems : List Product → List CartItem → Except String (List LineItem)
  | _, [] => .ok []
  | inventory, item :: rest =>
    match inventory.find? (fun p => p.id == item.id) with
    | none => .error ("Item with id " ++ item.id ++ " is not on the inventory")
    | some product =>
      match validateCartItems inventory rest with
      | .error e => .error e
      | .ok tail => .ok (lineItemOf product item :: tail)

/-- The relational store: the `Cart` and `CartItem` tables. -/
structure DB where
  carts : List Cart
  items : List CartItem
deriving Repr, DecidableEq

/-- `prisma.cart.findUnique({ where: { id } })`. -/
def cartFindUnique (db : DB) (id : String) : Option Cart :=
  db.carts.find? (fun c => c.id == id)

/-- `prisma.cart.findUnique({ where: { id } }).items()`. -/
def cartItemsOf (db : DB) (cartId : String) : List CartItem :=
  db.items.filter (fun it => it.cartId == cartId)

/-- `prisma.cartItem.findUnique` on the composite key `id_cartId`. -/
def cartItemFindUnique (db : DB) (id cartId : String) : Option CartItem :=
  db.items.find? (fun it => it.id == id && it.cartId == cartId)

/-- `findOrCreateCart` from `lib/cart.ts`: look the cart up by id and, only
when absent, create a row with exactly that id. -/
def findOrCreateCart (db : DB) (id : String) : Cart × DB :=
  match cartFindUnique db id with
  | some cart => (cart, db)
  | none =>
    let cart : Cart := { id := id }
    (cart, { db with carts := db.carts ++ [cart] })

/-- Input of the `addItem` mutation (`AddToCartInput`): `quantity` is the
only optional numeric field, `description` and `image` are nullable. -/
structure AddItemInput where
  cartId : String
  id : String
  name : String
  description : Option String
  image : Option String
  price : Int
  quantity : Option Int
deriving Repr, DecidableEq

/-- `prisma.cartItem.upsert` as invoked by the `addItem` resolver: keyed on
`id_cartId`; the `create` branch captures the input's descriptive fields and
`input.quantity || 1`; the `update` branch only increments `quantity` by
`input.quantity || 1`. -/
def cartItemUpsert (db : DB) (input : AddItemInput) (cartId : String) : DB :=
  match cartItemFindUnique db input.id cartId with
  | none =>
    { db with items := db.items ++ [{
        id := input.id
        name := input.name
        description := input.description
        price := input.price
        quantity := jsQuantityOr1 input.quantity
        image := input.image
        cartId := cartId }] }
  | some _ =>
    { db with items := db.items.map (fun it =>
        if it.id == input.id && it.cartId == cartId then
          { it with quantity := it.quantity + jsQuantityOr1 input.quantity }
        else it) }

/-- The `addItem` resolver: find-or-create the cart, upsert the item on the
composite key, return the cart. -/
def addItem (db : DB) (input : AddItemInput) : Cart × DB :=
  let r := findOrCreateCart db input.cartId
  (r.fst, cartItemUpsert r.snd input r.fst.id)

/-- The `Cart.totalItems` resolver body, exactly as written:
`items.reduce((total, item) => total + item.quantity || 1, 0)` —
in JavaScript `+` binds tighter than `||`, so each step is
`(total + item.quantity) || 1`. -/
def totalItemsResolver (items : List CartItem) : Int :=
  items.foldl (fun total item => jsOrInt (total + item.quantity) 1) 0

/-- The sum of the quantities of a list of cart items. -/
def sumQuantities (items : List CartItem) : Int :=
  items.foldl (fun total item => total + item.quantity) 0

/-- The `decreaseCartItem` resolver: `prisma.cartItem.update` with an atomic
`decrement: 1` (throws — modelled as `none` — when the row is absent) reading
back the new quantity, then, when that quantity is `<= 0`, a second update
setting it to exactly 0; finally returns `findOrCreateCart` of the row's
cart id together with the new state. -/
def decreaseCartItem (db : DB) (id cartId : String) : Option (Cart × DB) :=
  match cartItemFindUnique db id cartId with
  | none => none
  | some it =>
    let items1 := db.items.map (fun x =>
        if x.id == id && x.cartId == cartId then { x with quantity := x.quantity - 1 } else x)
    let newq : Int := it.quantity - 1
    let items2 :=
      if newq ≤ 0 then
        items1.map (fun x =>
          if x.id == id && x.cartId == cartId then { x with quantity := 0 } else x)
      else items1
    some (findOrCreateCart { db with items := items2 } it.cartId)

/-- The `removeItem` resolver: `prisma.cartItem.delete` on the composite key
(throws a not-found error — modelled as `none` — when the row is absent),
then returns `findOrCreateCart` of the deleted row's cart id. -/
def removeItem (db : DB) (id cartId : String) : Option (Cart × DB) :=
  match cartItemFindUnique db id cartId with
  | none => none
  | some it =>
    let remaining := db.items.eraseP (fun x => x.id == id && x.cartId == cartId)
    let db1 : DB := { db with items := remaining }
    some (findOrCreateCart db1 it.cartId)

/-- The database-level uniqueness of the `@@id([id, cartId])` composite key:
no two `CartItem` rows share both `id` and `cartId`. -/
def ItemKeyUnique (db : DB) : Prop :=
  db.items.Pairwise (fun a b => ¬(a.id = b.id ∧ a.cartId = b.cartId))

/-- Parameters of `stripe.checkout.sessions.create` as the resolver fills
them (the cart id goes into `metadata.cartId`). -/
structure SessionCreateParams where
  success_url : String
  cancel_url : String
  line_items : List LineItem
  metadata_cartId : String
  mode : String
deriving Repr, DecidableEq

/-- The session object Stripe returns: an id and a nullable redirect url. -/
structure StripeSession where
  id : String
  url : Option String
deriving Repr, DecidableEq

/-- The `CheckoutSession` payload the mutation returns to the client. -/
structure CheckoutSessionPayload where
  id : String
  url : Option String
deriving Repr, DecidableEq

/-- The `createCheckoutSession` resolver: load the cart (throw `Invalid cart`
when absent), load its items (throw `Cart is empty` when there are none),
validate them against the inventory, then call Stripe (passed in as
`stripeCreate`) with success/cancel redirect targets and the cart id as
session metadata, returning the session's id and url.  The store is
returned unchanged: the resolver never writes to it. -/
def createCheckoutSession (stripeCreate : SessionCreateParams → StripeSession)
    (inventory : List Product) (origin : String) (db : DB) (cartId : String) :
    Except String (CheckoutSessionPayload × DB) :=
  match cartFindUnique db cartId with
  | none => .error "Invalid cart"
  | some cart =>
    let cartItems := cartItemsOf db cartId
    if cartItems.isEmpty then .error "Cart is empty"
    else
      match validateCartItems inventory cartItems with
      | .error e => .error e
      | .ok line_items =>
        let session := stripeCreate {
          success_url := origin ++ "/thankyou?session_id={CHECKOUT_SESSION_ID}"
          cancel_url := origin ++ "/cart?cancelled=true"
          line_items := line_items
          metadata_cartId := cart.id
          mode := "payment" }
        .ok ({ id := session.id, url := session.url }, db)

/-- A Stripe webhook event envelope (only its `type` matters to the handler). -/
structure StripeEvent where
  type : String
deriving Repr, DecidableEq

/-- An inbound webhook request: a raw payload and the optional
`stripe-signature` header. -/
structure WebhookRequest where
  payload : String
  signature : Option String
deriving Repr, DecidableEq

/-- Outcome of the webhook handler: the HTTP status it responds with and
whether the fulfillment block was reached. -/
structure WebhookResult where
  status : Nat
  fulfilled : Bool
deriving Repr, DecidableEq

/-- The `pages/api/webhook.ts` handler: throw when the `stripe-signature`
header is missing, verify the payload with `stripe.webhooks.constructEvent`
(passed in as `constructEvent`; verification failure is `Except.error`) —
any of those errors is answered with HTTP 400 and no fulfillment; a verified
event is answered with HTTP 200, fulfilling only when its type is
`checkout.session.completed`. -/
def Webhook (constructEvent : String → String → Except String StripeEvent)
    (req : WebhookRequest) : WebhookResult :=
  match req.signature with
  | none => { status := 400, fulfilled := false }
  | some sig =>
    match constructEvent req.payload sig with
    | .error _ => { status := 400, fulfilled := false }
    | .ok event => { status := 200, fulfilled := event.type == "checkout.session.completed" }

/-! Concrete fixtures used by witnesses and counterexamples. -/

/-- Example inventory product: the trusted price is 5000. -/
def prodEx : Product :=
  { id := "p1", slug := "ocean-blue-shirt", title := "Ocean Blue Shirt",
    price := 5000, src := "shirt.png", body := "A shirt" }

/-- Example cart item whose stored price (9999) differs from the inventory price. -/
def tamperedItemEx : CartItem :=
  { id := "p1", name := "Ocean Blue Shirt", description := some "Nice", price := 9999,
    quantity := 2, image := some "shirt.png", cartId := "c1" }

/-- Example cart item whose id matches nothing in the inventory even though
its price equals an inventory price. -/
def unknownItemEx : CartItem :=
  { id := "ghost", name := "Ghost", description := none, price := 5000,
    quantity := 1, image := none, cartId := "c1" }

/-- Example cart item with quantity 0 (reachable by decreasing to the floor). -/
def zeroQtyItemEx : CartItem :=
  { id := "p1", name := "Shirt", description := none, price := 1000,
    quantity := 0, image := none, cartId := "c1" }

/-- Example store: one cart `c1` holding one item of quantity 0. -/
def dbZeroEx : DB := { carts := [{ id := "c1" }], items := [zeroQtyItemEx] }

/-- Example empty store. -/
def dbEmptyEx : DB := { carts := [], items := [] }

/-- Example store with cart `c1` and no items. -/
def dbCartOnlyEx : DB := { carts := [{ id := "c1" }], items := [] }

/-- Example store with cart `c1` holding one item. -/
def dbOneItemEx : DB := { carts := [{ id := "c1" }], items := [tamperedItemEx] }

/-- Example `addItem` input carrying an explicit quantity of 0. -/
def addZeroEx : AddItemInput :=
  { cartId := "c1", id := "p1", name := "Shirt", description := none,
    image := none, price := 1000, quantity := some 0 }

/-- Example Stripe stub returning a fixed session. -/
def stripeCreateEx : SessionCreateParams → StripeSession :=
  fun _ => { id := "cs_test_1", url := some "https://checkout.stripe.com/pay/cs_test_1" }

/-- Example signature verifier: accepts exactly the signature `valid` and
reads the event type off the payload. -/
def constructEventEx : String → String → Except String StripeEvent :=
  fun payload sig => if sig == "valid" then .ok { type := payload } else .error "bad signature"

/-! Helper lemmas about the list-level storage primitives. -/

/-- A conditional in-place update keeps the same rows matching a key
predicate it preserves, so `find?` commutes with it. -/
theorem find?_condMap {α : Type} (p : α → Bool) (g : α → α)
    (hg : ∀ x, p x = true → p (g x) = true) :
    ∀ l : List α,
      (l.map (fun x => if p x then g x else x)).find? p
        = (l.find? p).map (fun x => if p x then g x else x) := by
  intro l
  induction l with
  | nil => rfl
  | cons a t ih =>
    by_cases h : p a = true
    · simp [List.find?_cons, h, hg a h]
    · have hb : p a = false := by simpa using h
      simp only [List.map_cons, List.find?_cons, hb, if_neg, Bool.false_eq_true,
        if_false, Option.map_none]
      simpa [hb] using ih

/-- A conditional in-place update that preserves a key predicate commutes
with `filter` on that predicate. -/
theorem filter_condMap {α : Type} (p : α → Bool) (g : α → α)
    (hg : ∀ x, p x = true → p (g x) = true) :
    ∀ l : List α,
      (l.map (fun x => if p x then g x else x)).filter p
        = (l.filter p).map (fun x => if p x then g x else x) := by
  intro l
  induction l with
  | nil => rfl
  | cons a t ih =>
    by_cases h : p a = true
    · simp only [List.map_cons, List.filter_cons, h, if_pos, hg a h, ih]
    · have hb : p a = false := by simpa using h
      simp only [List.map_cons, List.filter_cons, hb, if_neg, Bool.false_eq_true, if_false]
      simpa [hb] using ih

/-- In a list whose elements pairwise never both satisfy the key predicate,
erasing the first match leaves no match behind. -/
theorem find?_eraseP_of_pairwise {α : Type} (p : α → Bool) (R : α → α → Prop)
    (hpR : ∀ a b, p a = true → p b = true → R a b → False) :
    ∀ l : List α, l.Pairwise R → (l.eraseP p).find? p = none := by
  intro l
  induction l with
  | nil => intro _; rfl
  | cons a t ih =>
    intro hp
    rcases List.pairwise_cons.mp hp with ⟨ha, ht⟩
    by_cases h : p a = true
    · rw [List.eraseP_cons_of_pos h]
      exact List.find?_eq_none.mpr fun x hx hpx => hpR a x h hpx (ha x hx)
    · rw [List.eraseP_cons_of_neg h]
      have hb : p a = false := by simpa using h
      simp only [List.find?_cons, hb, Bool.false_eq_true, if_false]
      exact ih ht

/-- `findOrCreateCart` returns a cart carrying exactly the requested id. -/
theorem findOrCreateCart_id (db : DB) (id : String) :
    (findOrCreateCart db id).fst.id = id := by
  unfold findOrCreateCart
  cases h : cartFindUnique db id with
  | none => rfl
  | some c =>
    have := List.find?_some h
    simpa using beq_iff_eq.mp (by simpa using this)

/-- `findOrCreateCart` never touches the `CartItem` table. -/
theorem findOrCreateCart_items (db : DB) (id : String) :
    (findOrCreateCart db id).snd.items = db.items := by
  unfold findOrCreateCart
  cases h : cartFindUnique db id <;> rfl

/-- After `findOrCreateCart`, a cart with the requested id is present and is
the returned cart. -/
theorem findOrCreateCart_find_after (db : DB) (id : String) :
    cartFindUnique (findOrCreateCart db id).snd id = some (findOrCreateCart db id).fst := by
  unfold findOrCreateCart
  cases h : cartFindUnique db id with
  | none =>
    simp only [cartFindUnique] at h ⊢
    rw [List.find?_append, h]
    simp
  | some c => simpa [cartFindUnique] using h

/-- C1: when every cart item's id matches some inventory product,
`validateCartItems` returns one provider line item per cart item, in input
order, whose unit price is the matching inventory product's price — never
the cart item's stored price, even when the two differ — whose quantity is
the cart item's quantity, and whose name, description and image come from
the cart item. -/
theorem validateCartItems_uses_inventory_price
    (inventory : List Product) (cartItems : List CartItem)
    (h : ∀ item ∈ cartItems, ∃ p ∈ inventory, p.id = item.id) :
    ∃ l, validateCartItems inventory cartItems = .ok l ∧
      l.length = cartItems.length ∧
      List.Forall₂ (fun (item : CartItem) (li : LineItem) =>
        ∃ p, inventory.find? (fun q => q.id == item.id) = some p ∧
          li.price_data.unit_amount = p.price ∧
          (item.price ≠ p.price → li.price_data.unit_amount ≠ item.price) ∧
          li.quantity = item.quantity ∧
          li.price_data.product_data.name = item.name ∧
          li.price_data.product_data.description =
            (if strTruthy item.description then item.description else none) ∧
          li.price_data.product_data.images =
            (match item.image with
              | some img => if img != "" then [img] else []
              | none => [])) cartItems l := by
  induction cartItems with
  | nil => exact ⟨[], rfl, rfl, List.Forall₂.nil⟩
  | cons item rest ih =>
    obtain ⟨p, hpmem, hpid⟩ := h item (List.mem_cons_self item rest)
    have hsome : (inventory.find? (fun q => q.id == item.id)).isSome :=
      List.find?_isSome.mpr ⟨p, hpmem, by simp [hpid]⟩
    obtain ⟨q, hq⟩ := Option.isSome_iff_exists.mp hsome
    obtain ⟨tl, htl, hlen, hfa⟩ := ih (fun x hx => h x (List.mem_cons_of_mem _ hx))
    refine ⟨lineItemOf q item :: tl, ?_, by simpa using hlen, ?_⟩
    · simp [validateCartItems, hq, htl]
    · exact List.Forall₂.cons ⟨q, hq, rfl, fun hne => Ne.symm hne, rfl, rfl, rfl, rfl⟩ hfa

/-- Witness for C1: a cart item with tampered stored price 9999 against an
inventory price of 5000 satisfies the hypothesis, and the produced line
item charges the inventory price. -/
theorem validateCartItems_uses_inventory_price_witness :
    (∀ item ∈ [tamperedItemEx], ∃ p ∈ [prodEx], p.id = item.id) ∧
    (∃ l, validateCartItems [prodEx] [tamperedItemEx] = .ok l ∧
      l.length = [tamperedItemEx].length ∧
      List.Forall₂ (fun (item : CartItem) (li : LineItem) =>
        ∃ p, [prodEx].find? (fun q => q.id == item.id) = some p ∧
          li.price_data.unit_amount = p.price ∧
          (item.price ≠ p.price → li.price_data.unit_amount ≠ item.price) ∧
          li.quantity = item.quantity ∧
          li.price_data.product_data.name = item.name ∧
          li.price_data.product_data.description =
            (if strTruthy item.description then item.description else none) ∧
          li.price_data.product_data.images =
            (match item.image with
              | some img => if img != "" then [img] else []
              | none => [])) [tamperedItemEx] l) :=
  ⟨by decide, validateCartItems_uses_inventory_price [prodEx] [tamperedItemEx] (by decide)⟩

/-- C2: whenever some cart item's id has no match in the inventory —
regardless of prices — `validateCartItems` throws an error naming such an
item instead of silently dropping it. -/
theorem validateCartItems_rejects_unknown_item
    (inventory : List Product) (cartItems : List CartItem)
    (h : ∃ item ∈ cartItems, ∀ p ∈ inventory, p.id ≠ item.id) :
    ∃ item ∈ cartItems, (∀ p ∈ inventory, p.id ≠ item.id) ∧
      validateCartItems inventory cartItems =
        .error ("Item with id " ++ item.id ++ " is not on the inventory") := by
  induction cartItems with
  | nil => simp at h
  | cons a rest ih =>
    cases hfa : inventory.find? (fun q => q.id == a.id) with
    | none =>
      have hnone : ∀ p ∈ inventory, p.id ≠ a.id := by
        intro p hp
        simpa using List.find?_eq_none.mp hfa p hp
      exact ⟨a, List.mem_cons_self a rest, hnone, by simp [validateCartItems, hfa]⟩
    | some q =>
      have hqmem := List.mem_of_find?_eq_some hfa
      have hqid : q.id = a.id := by simpa using List.find?_some hfa
      obtain ⟨item, hmem, hall⟩ := h
      have hrest : item ∈ rest := by
        rcases List.mem_cons.mp hmem with heq | hr
        · rw [heq] at hall
          exact absurd hqid (hall q hqmem)
        · exact hr
      obtain ⟨j, hjmem, hjall, hjeq⟩ := ih ⟨item, hrest, hall⟩
      refine ⟨j, List.mem_cons_of_mem _ hjmem, hjall, ?_⟩
      simp [validateCartItems, hfa, hjeq]

/-- Witness for C2: a cart holding one valid item and one item whose id
matches no product (though its price equals an inventory price) is
rejected with the error naming the unknown item. -/
theorem validateCartItems_rejects_unknown_item_witness :
    (∃ item ∈ [tamperedItemEx, unknownItemEx], ∀ p ∈ [prodEx], p.id ≠ item.id) ∧
    (∃ item ∈ [tamperedItemEx, unknownItemEx], (∀ p ∈ [prodEx], p.id ≠ item.id) ∧
      validateCartItems [prodEx] [tamperedItemEx, unknownItemEx] =
        .error ("Item with id " ++ item.id ++ " is not on the inventory")) :=
  ⟨by decide, validateCartItems_rejects_unknown_item [prodEx] [tamperedItemEx, unknownItemEx]
    (by decide)⟩

/-- C3: the `Cart.totalItems` resolver computes
`items.reduce((total, item) => total + item.quantity || 1, 0)`, where `+`
binds tighter than `||`; on a non-empty cart whose single item has
quantity 0 it therefore returns 1, while the sum of the quantities — the
value the claim requires — is 0. -/
theorem totalItemsResolver_zero_quantity_eval :
    totalItemsResolver [zeroQtyItemEx] = 1 ∧
    sumQuantities [zeroQtyItemEx] = 0 ∧
    (1 : Int) ≠ 0 := by
  exact ⟨by decide, by decide, by decide⟩

/-- A quantity-only in-place update of the rows with a given composite key
commutes with looking that key up. -/
theorem find?_quantity_map (l : List CartItem) (id cartId : String) (f : CartItem → Int) :
    (l.map (fun x => if x.id == id && x.cartId == cartId then { x with quantity := f x } else x)).find?
        (fun x => x.id == id && x.cartId == cartId)
      = (l.find? (fun x => x.id == id && x.cartId == cartId)).map
        (fun x => if x.id == id && x.cartId == cartId then { x with quantity := f x } else x) :=
  find?_condMap (fun x => x.id == id && x.cartId == cartId)
    (fun x => { x with quantity := f x }) (fun _ hx => hx) l

/-- A quantity-only in-place update of the rows with a given composite key
commutes with filtering on that key. -/
theorem filter_quantity_map (l : List CartItem) (id cartId : String) (f : CartItem → Int) :
    (l.map (fun x => if x.id == id && x.cartId == cartId then { x with quantity := f x } else x)).filter
        (fun x => x.id == id && x.cartId == cartId)
      = (l.filter (fun x => x.id == id && x.cartId == cartId)).map
        (fun x => if x.id == id && x.cartId == cartId then { x with quantity := f x } else x) :=
  filter_condMap (fun x => x.id == id && x.cartId == cartId)
    (fun x => { x with quantity := f x }) (fun _ hx => hx) l

/-- One `decreaseCartItem` call on an existing row succeeds, keeps every row,
and leaves the row's quantity at `max (old - 1) 0`. -/
theorem decrease_step (db : DB) (id cartId : String) (it : CartItem)
    (h : cartItemFindUnique db id cartId = some it) :
    ∃ cart db2, decreaseCartItem db id cartId = some (cart, db2) ∧
      db2.items.length = db.items.length ∧
      cartItemFindUnique db2 id cartId =
        some { it with quantity := max (it.quantity - 1) 0 } := by
  have hfl : db.items.find? (fun x => x.id == id && x.cartId == cartId) = some it := h
  have hpred := List.find?_some hfl
  by_cases hq : it.quantity - 1 ≤ 0
  · have hstep : decreaseCartItem db id cartId =
        some (findOrCreateCart
          { db with items := (db.items.map (fun x => if x.id == id && x.cartId == cartId then { x with quantity := x.quantity - 1 } else x)).map (fun x => if x.id == id && x.cartId == cartId then { x with quantity := 0 } else x) }
          it.cartId) := by
      simp only [decreaseCartItem, h, hq, if_pos]
    refine ⟨_, _, by rw [hstep], ?_, ?_⟩
    · rw [findOrCreateCart_items]
      simp
    · simp only [cartItemFindUnique, findOrCreateCart_items]
      rw [find?_quantity_map, find?_quantity_map, hfl]
      simp only [Option.map_some', hpred, if_pos]
      have h1 : max (it.quantity - 1) 0 = 0 := max_eq_right hq
      rw [h1]
  · have hstep : decreaseCartItem db id cartId =
        some (findOrCreateCart
          { db with items := db.items.map (fun x => if x.id == id && x.cartId == cartId then { x with quantity := x.quantity - 1 } else x) }
          it.cartId) := by
      simp only [decreaseCartItem, h, hq, if_neg, not_false_iff]
    refine ⟨_, _, by rw [hstep], ?_, ?_⟩
    · rw [findOrCreateCart_items]
      simp
    · simp only [cartItemFindUnique, findOrCreateCart_items]
      rw [find?_quantity_map, hfl]
      simp only [Option.map_some', hpred, if_pos]
      have h1 : max (it.quantity - 1) 0 = it.quantity - 1 :=
        max_eq_left (le_of_lt (by omega))
      rw [h1]

/-- C4: on an existing (id, cartId) row, `decreaseCartItem` decrements the
quantity by exactly 1 clamping at zero: the stored quantity is never
negative afterwards, the row (and every other row) survives, all other
fields are untouched, and on a quantity-0 row the call does not error,
leaves the quantity at 0, and a repeated decrease is again a no-op at 0. -/
theorem decreaseCartItem_clamps_at_zero (db : DB) (id cartId : String) (it : CartItem)
    (h : cartItemFindUnique db id cartId = some it) :
    ∃ cart db2, decreaseCartItem db id cartId = some (cart, db2) ∧
      db2.items.length = db.items.length ∧
      (∃ it2, cartItemFindUnique db2 id cartId = some it2 ∧
        it2.quantity = max (it.quantity - 1) 0 ∧ 0 ≤ it2.quantity ∧
        it2.id = it.id ∧ it2.cartId = it.cartId ∧ it2.name = it.name ∧
        it2.price = it.price ∧ it2.description = it.description ∧ it2.image = it.image) ∧
      (it.quantity ≤ 0 →
        ∃ cart3 db3, decreaseCartItem db2 id cartId = some (cart3, db3) ∧
          db3.items.length = db2.items.length ∧
          ∃ it3, cartItemFindUnique db3 id cartId = some it3 ∧ it3.quantity = 0) := by
  obtain ⟨cart, db2, hdec, hlen, hfind⟩ := decrease_step db id cartId it h
  refine ⟨cart, db2, hdec, hlen,
    ⟨_, hfind, rfl, le_max_right _ _, rfl, rfl, rfl, rfl, rfl, rfl⟩, ?_⟩
  intro hq0
  obtain ⟨cart3, db3, hdec3, hlen3, hfind3⟩ := decrease_step db2 id cartId _ hfind
  refine ⟨cart3, db3, hdec3, hlen3, _, hfind3, ?_⟩
  show max (max (it.quantity - 1) 0 - 1) 0 = 0
  have h1 : max (it.quantity - 1) 0 = 0 := max_eq_right (by omega)
  rw [h1]
  decide

/-- Witness for C4: decreasing the quantity-0 item of `dbZeroEx` succeeds,
leaves the quantity at 0 and stays a no-op on repetition. -/
theorem decreaseCartItem_clamps_at_zero_witness :
    (cartItemFindUnique dbZeroEx "p1" "c1" = some zeroQtyItemEx) ∧
    (∃ cart db2, decreaseCartItem dbZeroEx "p1" "c1" = some (cart, db2) ∧
      db2.items.length = dbZeroEx.items.length ∧
      (∃ it2, cartItemFindUnique db2 "p1" "c1" = some it2 ∧
        it2.quantity = max (zeroQtyItemEx.quantity - 1) 0 ∧ 0 ≤ it2.quantity ∧
        it2.id = zeroQtyItemEx.id ∧ it2.cartId = zeroQtyItemEx.cartId ∧
        it2.name = zeroQtyItemEx.name ∧ it2.price = zeroQtyItemEx.price ∧
        it2.description = zeroQtyItemEx.description ∧ it2.image = zeroQtyItemEx.image) ∧
      (zeroQtyItemEx.quantity ≤ 0 →
        ∃ cart3 db3, decreaseCartItem db2 "p1" "c1" = some (cart3, db3) ∧
          db3.items.length = db2.items.length ∧
          ∃ it3, cartItemFindUnique db3 "p1" "c1" = some it3 ∧ it3.quantity = 0)) :=
  ⟨by decide, decreaseCartItem_clamps_at_zero dbZeroEx "p1" "c1" zeroQtyItemEx (by decide)⟩

/-- `findOrCreateCart` leaves every `CartItem` lookup unchanged. -/
theorem cartItemFindUnique_focc (db : DB) (cid id cartId : String) :
    cartItemFindUnique (findOrCreateCart db cid).snd id cartId =
      cartItemFindUnique db id cartId := by
  simp only [cartItemFindUnique, findOrCreateCart_items]

/-- The `create` branch of the upsert appends exactly one freshly-built row. -/
theorem cartItemUpsert_items_none (d : DB) (input : AddItemInput) (cid : String)
    (h : cartItemFindUnique d input.id cid = none) :
    (cartItemUpsert d input cid).items =
      d.items ++ [{ id := input.id, name := input.name, description := input.description, price := input.price, quantity := jsQuantityOr1 input.quantity, image := input.image, cartId := cid }] := by
  simp [cartItemUpsert, h]

/-- The `update` branch of the upsert maps an in-place quantity increment
over the rows with the composite key. -/
theorem cartItemUpsert_items_some (d : DB) (input : AddItemInput) (cid : String)
    (it0 : CartItem) (h : cartItemFindUnique d input.id cid = some it0) :
    (cartItemUpsert d input cid).items =
      d.items.map (fun x => if x.id == input.id && x.cartId == cid then { x with quantity := x.quantity + jsQuantityOr1 input.quantity } else x) := by
  simp [cartItemUpsert, h]

/-- `addItem` on a missing row appends exactly one row capturing the input. -/
theorem addItem_items_insert (db : DB) (input : AddItemInput)
    (h : cartItemFindUnique db input.id input.cartId = none) :
    (addItem db input).snd.items =
      db.items ++ [{ id := input.id, name := input.name, description := input.description, price := input.price, quantity := jsQuantityOr1 input.quantity, image := input.image, cartId := input.cartId }] := by
  show (cartItemUpsert (findOrCreateCart db input.cartId).snd input
    (findOrCreateCart db input.cartId).fst.id).items = _
  rw [findOrCreateCart_id]
  have h2 : cartItemFindUnique (findOrCreateCart db input.cartId).snd input.id input.cartId = none := by
    rw [cartItemFindUnique_focc]
    exact h
  rw [cartItemUpsert_items_none _ _ _ h2, findOrCreateCart_items]

/-- After inserting through `addItem`, the composite-key lookup returns the
freshly-built row. -/
theorem addItem_find_insert (db : DB) (input : AddItemInput)
    (h : cartItemFindUnique db input.id input.cartId = none) :
    cartItemFindUnique (addItem db input).snd input.id input.cartId =
      some { id := input.id, name := input.name, description := input.description, price := input.price, quantity := jsQuantityOr1 input.quantity, image := input.image, cartId := input.cartId } := by
  have hfl : db.items.find? (fun x => x.id == input.id && x.cartId == input.cartId) = none := h
  simp only [cartItemFindUnique]
  rw [addItem_items_insert db input h, List.find?_append, hfl]
  simp

/-- `addItem` on an existing row maps an in-place quantity increment over
the rows with the composite key. -/
theorem addItem_items_increment (db : DB) (input : AddItemInput) (it0 : CartItem)
    (h : cartItemFindUnique db input.id input.cartId = some it0) :
    (addItem db input).snd.items =
      db.items.map (fun x => if x.id == input.id && x.cartId == input.cartId then { x with quantity := x.quantity + jsQuantityOr1 input.quantity } else x) := by
  show (cartItemUpsert (findOrCreateCart db input.cartId).snd input
    (findOrCreateCart db input.cartId).fst.id).items = _
  rw [findOrCreateCart_id]
  have h2 : cartItemFindUnique (findOrCreateCart db input.cartId).snd input.id input.cartId = some it0 := by
    rw [cartItemFindUnique_focc]
    exact h
  rw [cartItemUpsert_items_some _ _ _ _ h2, findOrCreateCart_items]

/-- After incrementing through `addItem`, the composite-key lookup returns
the old row with only its quantity increased. -/
theorem addItem_find_increment (db : DB) (input : AddItemInput) (it0 : CartItem)
    (h : cartItemFindUnique db input.id input.cartId = some it0) :
    cartItemFindUnique (addItem db input).snd input.id input.cartId =
      some { it0 with quantity := it0.quantity + jsQuantityOr1 input.quantity } := by
  have hfl : db.items.find? (fun x => x.id == input.id && x.cartId == input.cartId) = some it0 := h
  have hpred := List.find?_some hfl
  simp only [cartItemFindUnique]
  rw [addItem_items_increment db input it0 h, find?_quantity_map, hfl]
  simp only [Option.map_some', hpred, if_pos]

/-- C5 counterexample: two `addItem` calls that both carry an explicit
quantity of 0 leave the single row at quantity 2, not at the sum 0 of the
two calls' given quantities (`input.quantity || 1` turns each 0 into 1). -/
theorem addItem_quantity_zero_counterexample :
    ((cartItemFindUnique (addItem (addItem dbEmptyEx addZeroEx).snd addZeroEx).snd "p1" "c1").map
        (fun it => it.quantity)) = some 2 ∧
    addZeroEx.quantity = some 0 ∧
    (2 : Int) ≠ 0 + 0 := by
  exact ⟨by decide, by decide, by decide⟩

/-- C5 (amended): `addItem` is an upsert keyed by (id, cartId) whose
effective quantity is `input.quantity || 1` (the given quantity when it is
nonzero, 1 when it is omitted or 0): on a missing row it inserts one row
capturing the input's price and descriptive fields with the effective
quantity; on an existing row it only increments the quantity by the
effective quantity; hence two calls with the same (cartId, id) yield a
single row whose quantity is the sum of the two calls' effective
quantities, never a duplicate row, with price and descriptive fields from
the first call. -/
theorem addItem_upsert_effective_quantity (db : DB) (i1 i2 : AddItemInput)
    (h0 : cartItemFindUnique db i1.id i1.cartId = none)
    (hc : i2.cartId = i1.cartId) (hi : i2.id = i1.id) :
    ∃ it, cartItemFindUnique (addItem (addItem db i1).snd i2).snd i1.id i1.cartId = some it ∧
      it.quantity = jsQuantityOr1 i1.quantity + jsQuantityOr1 i2.quantity ∧
      it.name = i1.name ∧ it.price = i1.price ∧
      it.description = i1.description ∧ it.image = i1.image ∧
      (((addItem (addItem db i1).snd i2).snd.items.filter
          (fun x => x.id == i1.id && x.cartId == i1.cartId)).length = 1) := by
  have hrow := addItem_find_insert db i1 h0
  have hrow2 : cartItemFindUnique (addItem db i1).snd i2.id i2.cartId =
      some { id := i1.id, name := i1.name, description := i1.description, price := i1.price, quantity := jsQuantityOr1 i1.quantity, image := i1.image, cartId := i1.cartId } := by
    rw [hc, hi]
    exact hrow
  have hfind2 := addItem_find_increment (addItem db i1).snd i2 _ hrow2
  rw [hc, hi] at hfind2
  refine ⟨_, hfind2, rfl, rfl, rfl, rfl, rfl, ?_⟩
  have hitems2 := addItem_items_increment (addItem db i1).snd i2 _ hrow2
  rw [hc, hi] at hitems2
  rw [hitems2, filter_quantity_map, addItem_items_insert db i1 h0, List.filter_append]
  have hnil : db.items.filter (fun x => x.id == i1.id && x.cartId == i1.cartId) = [] :=
    List.filter_eq_nil_iff.mpr (List.find?_eq_none.mp h0)
  rw [hnil]
  simp

/-- Witness for C5 (amended): adding the same quantity-0 input twice to an
empty store yields one row of quantity `(0 || 1) + (0 || 1) = 2`. -/
theorem addItem_upsert_effective_quantity_witness :
    (cartItemFindUnique dbEmptyEx addZeroEx.id addZeroEx.cartId = none) ∧
    (∃ it, cartItemFindUnique (addItem (addItem dbEmptyEx addZeroEx).snd addZeroEx).snd addZeroEx.id addZeroEx.cartId = some it ∧
      it.quantity = jsQuantityOr1 addZeroEx.quantity + jsQuantityOr1 addZeroEx.quantity ∧
      it.name = addZeroEx.name ∧ it.price = addZeroEx.price ∧
      it.description = addZeroEx.description ∧ it.image = addZeroEx.image ∧
      (((addItem (addItem dbEmptyEx addZeroEx).snd addZeroEx).snd.items.filter
          (fun x => x.id == addZeroEx.id && x.cartId == addZeroEx.cartId)).length = 1)) :=
  ⟨by decide, addItem_upsert_effective_quantity dbEmptyEx addZeroEx addZeroEx (by decide) rfl rfl⟩

/-- C10: in `addItem`, an explicit input quantity of 0 behaves exactly like
an omitted quantity: both branches fall back to 1 (`input.quantity || 1`),
so the call creates the row with quantity 1 or increments an existing row
by 1 — it is never a no-op. -/
theorem addItem_quantity_zero_defaults_to_one (db : DB) (input : AddItemInput)
    (hq : input.quantity = some 0) :
    addItem db input = addItem db { input with quantity := none } ∧
    (cartItemFindUnique db input.id input.cartId = none →
      ∃ it, cartItemFindUnique (addItem db input).snd input.id input.cartId = some it ∧
        it.quantity = 1) ∧
    (∀ it0, cartItemFindUnique db input.id input.cartId = some it0 →
      ∃ it, cartItemFindUnique (addItem db input).snd input.id input.cartId = some it ∧
        it.quantity = it0.quantity + 1) := by
  refine ⟨?_, ?_, ?_⟩
  · cases hfind : cartItemFindUnique (findOrCreateCart db input.cartId).snd input.id
      (findOrCreateCart db input.cartId).fst.id with
    | none => simp [addItem, cartItemUpsert, hfind, hq, jsQuantityOr1]
    | some it0 => simp [addItem, cartItemUpsert, hfind, hq, jsQuantityOr1]
  · intro h0
    refine ⟨_, addItem_find_insert db input h0, ?_⟩
    show jsQuantityOr1 input.quantity = 1
    rw [hq]
    rfl
  · intro it0 h0
    refine ⟨_, addItem_find_increment db input it0 h0, ?_⟩
    show it0.quantity + jsQuantityOr1 input.quantity = it0.quantity + 1
    rw [hq]
    rfl

/-- Witness for C10: the quantity-0 input on the empty store equals the
omitted-quantity call and creates the row with quantity 1. -/
theorem addItem_quantity_zero_defaults_to_one_witness :
    (addZeroEx.quantity = some 0) ∧
    (addItem dbEmptyEx addZeroEx = addItem dbEmptyEx { addZeroEx with quantity := none } ∧
    (cartItemFindUnique dbEmptyEx addZeroEx.id addZeroEx.cartId = none →
      ∃ it, cartItemFindUnique (addItem dbEmptyEx addZeroEx).snd addZeroEx.id addZeroEx.cartId = some it ∧
        it.quantity = 1) ∧
    (∀ it0, cartItemFindUnique dbEmptyEx addZeroEx.id addZeroEx.cartId = some it0 →
      ∃ it, cartItemFindUnique (addItem dbEmptyEx addZeroEx).snd addZeroEx.id addZeroEx.cartId = some it ∧
        it.quantity = it0.quantity + 1)) :=
  ⟨rfl, addItem_quantity_zero_defaults_to_one dbEmptyEx addZeroEx rfl⟩

/-- C6: `createCheckoutSession` fails with `Invalid cart` when no cart with
the id exists, with the distinct `Cart is empty` message when the cart has
no items, and otherwise — once validation succeeds — returns the external
session's id and url for parameters carrying the cart id as session
metadata, leaving the store unchanged. -/
theorem createCheckoutSession_error_paths
    (stripeCreate : SessionCreateParams → StripeSession)
    (inventory : List Product) (origin : String) (db : DB) (cartId : String) :
    (cartFindUnique db cartId = none →
      createCheckoutSession stripeCreate inventory origin db cartId = .error "Invalid cart") ∧
    (∀ cart, cartFindUnique db cartId = some cart → cartItemsOf db cartId = [] →
      createCheckoutSession stripeCreate inventory origin db cartId = .error "Cart is empty") ∧
    ("Invalid cart" : String) ≠ "Cart is empty" ∧
    (∀ cart l, cartFindUnique db cartId = some cart → cartItemsOf db cartId ≠ [] →
      validateCartItems inventory (cartItemsOf db cartId) = .ok l →
      ∃ params : SessionCreateParams,
        params.metadata_cartId = cartId ∧ params.line_items = l ∧
        params.success_url = origin ++ "/thankyou?session_id={CHECKOUT_SESSION_ID}" ∧
        params.cancel_url = origin ++ "/cart?cancelled=true" ∧ params.mode = "payment" ∧
        createCheckoutSession stripeCreate inventory origin db cartId =
          .ok ({ id := (stripeCreate params).id, url := (stripeCreate params).url }, db)) := by
  refine ⟨?_, ?_, by decide, ?_⟩
  · intro h
    simp [createCheckoutSession, h]
  · intro cart hc he
    simp [createCheckoutSession, hc, he]
  · intro cart l hc hne hval
    have hcid : cart.id = cartId := by simpa using List.find?_some hc
    have hempty : (cartItemsOf db cartId).isEmpty = false := by
      simp [List.isEmpty_iff, hne]
    refine ⟨{ success_url := origin ++ "/thankyou?session_id={CHECKOUT_SESSION_ID}", cancel_url := origin ++ "/cart?cancelled=true", line_items := l, metadata_cartId := cart.id, mode := "payment" },
      hcid, rfl, rfl, rfl, rfl, ?_⟩
    simp [createCheckoutSession, hc, hempty, hval]

/-- Witness for C6: on a store with one cart holding one valid item, the
missing-cart, empty-cart and success paths of `createCheckoutSession`
behave as stated. -/
theorem createCheckoutSession_error_paths_witness :
    createCheckoutSession stripeCreateEx [prodEx] "http://localhost:3000" dbEmptyEx "c1" =
      .error "Invalid cart" ∧
    createCheckoutSession stripeCreateEx [prodEx] "http://localhost:3000" dbCartOnlyEx "c1" =
      .error "Cart is empty" ∧
    (∃ params : SessionCreateParams, params.metadata_cartId = "c1" ∧
      createCheckoutSession stripeCreateEx [prodEx] "http://localhost:3000" dbOneItemEx "c1" =
        .ok ({ id := (stripeCreateEx params).id, url := (stripeCreateEx params).url }, dbOneItemEx)) := by
  refine ⟨?_, ?_, ?_⟩
  · exact (createCheckoutSession_error_paths stripeCreateEx [prodEx] "http://localhost:3000"
      dbEmptyEx "c1").1 rfl
  · exact (createCheckoutSession_error_paths stripeCreateEx [prodEx] "http://localhost:3000"
      dbCartOnlyEx "c1").2.1 { id := "c1" } rfl rfl
  · obtain ⟨params, hmeta, _, _, _, _, hrun⟩ :=
      (createCheckoutSession_error_paths stripeCreateEx [prodEx] "http://localhost:3000"
        dbOneItemEx "c1").2.2.2 { id := "c1" } [lineItemOf prodEx tamperedItemEx]
        rfl (by decide) rfl
    exact ⟨params, hmeta, hrun⟩

/-- When the cart exists, `findOrCreateCart` returns it with the store
untouched. -/
theorem findOrCreateCart_found (db : DB) (id : String) (c : Cart)
    (hc : cartFindUnique db id = some c) : findOrCreateCart db id = (c, db) := by
  simp [findOrCreateCart, hc]

/-- C7: `findOrCreateCart` returns a cart whose id is exactly the supplied
id, leaves the store untouched when the cart exists, creates exactly one
empty cart with that id when it does not (its only error-free paths), and
is idempotent: the second call returns the same cart and the same store. -/
theorem findOrCreateCart_idempotent (db : DB) (id : String) :
    (findOrCreateCart db id).fst.id = id ∧
    (∀ c, cartFindUnique db id = some c → findOrCreateCart db id = (c, db)) ∧
    (cartFindUnique db id = none →
      (findOrCreateCart db id).snd.carts = db.carts ++ [{ id := id }] ∧
      (findOrCreateCart db id).snd.items = db.items) ∧
    cartFindUnique (findOrCreateCart db id).snd id = some (findOrCreateCart db id).fst ∧
    findOrCreateCart (findOrCreateCart db id).snd id =
      ((findOrCreateCart db id).fst, (findOrCreateCart db id).snd) := by
  refine ⟨findOrCreateCart_id db id, ?_, ?_, findOrCreateCart_find_after db id, ?_⟩
  · intro c hc
    exact findOrCreateCart_found db id c hc
  · intro h
    exact ⟨by simp [findOrCreateCart, h], findOrCreateCart_items db id⟩
  · exact findOrCreateCart_found _ _ _ (findOrCreateCart_find_after db id)

/-- Witness for C7: on the empty store, `findOrCreateCart` creates exactly
one cart `c1` and a repeated call returns the same cart and store. -/
theorem findOrCreateCart_idempotent_witness :
    (findOrCreateCart dbEmptyEx "c1").fst.id = "c1" ∧
    (findOrCreateCart dbEmptyEx "c1").snd.carts = dbEmptyEx.carts ++ [{ id := "c1" }] ∧
    (findOrCreateCart dbEmptyEx "c1").snd.items = dbEmptyEx.items ∧
    findOrCreateCart (findOrCreateCart dbEmptyEx "c1").snd "c1" =
      ((findOrCreateCart dbEmptyEx "c1").fst, (findOrCreateCart dbEmptyEx "c1").snd) := by
  obtain ⟨h1, _, h3, _, h5⟩ := findOrCreateCart_idempotent dbEmptyEx "c1"
  obtain ⟨h3a, h3b⟩ := h3 rfl
  exact ⟨h1, h3a, h3b, h5⟩

/-- C8: the webhook handler answers HTTP 400 without fulfilling when the
signature header is missing or verification fails, and answers HTTP 200 on
a verified event, fulfilling exactly the `checkout.session.completed`
event type and accepting-but-ignoring every other type. -/
theorem webhook_verifies_signature
    (constructEvent : String → String → Except String StripeEvent) (req : WebhookRequest) :
    (req.signature = none →
      Webhook constructEvent req = { status := 400, fulfilled := false }) ∧
    (∀ sig msg, req.signature = some sig → constructEvent req.payload sig = .error msg →
      Webhook constructEvent req = { status := 400, fulfilled := false }) ∧
    (∀ sig ev, req.signature = some sig → constructEvent req.payload sig = .ok ev →
      Webhook constructEvent req =
        { status := 200, fulfilled := (ev.type == "checkout.session.completed") }) := by
  refine ⟨?_, ?_, ?_⟩
  · intro h
    simp [Webhook, h]
  · intro sig msg hs he
    simp [Webhook, hs, he]
  · intro sig ev hs he
    simp [Webhook, hs, he]

/-- Witness for C8: with a verifier accepting exactly the signature
`valid`, the four request shapes get the stated statuses and fulfillment. -/
theorem webhook_verifies_signature_witness :
    Webhook constructEventEx { payload := "x", signature := none } =
      { status := 400, fulfilled := false } ∧
    Webhook constructEventEx { payload := "x", signature := some "bad" } =
      { status := 400, fulfilled := false } ∧
    Webhook constructEventEx { payload := "checkout.session.completed", signature := some "valid" } =
      { status := 200, fulfilled := true } ∧
    Webhook constructEventEx { payload := "payment_intent.created", signature := some "valid" } =
      { status := 200, fulfilled := false } := by
  refine ⟨?_, ?_, ?_, ?_⟩
  · exact (webhook_verifies_signature constructEventEx
      { payload := "x", signature := none }).1 rfl
  · exact (webhook_verifies_signature constructEventEx
      { payload := "x", signature := some "bad" }).2.1 "bad" "bad signature" rfl rfl
  · have h := (webhook_verifies_signature constructEventEx
      { payload := "checkout.session.completed", signature := some "valid" }).2.2 "valid"
      { type := "checkout.session.completed" } rfl rfl
    rw [h]
    decide
  · have h := (webhook_verifies_signature constructEventEx
      { payload := "payment_intent.created", signature := some "valid" }).2.2 "valid"
      { type := "payment_intent.created" } rfl rfl
    rw [h]
    decide

/-- C9: `removeItem` on a missing (id, cartId) row fails with the not-found
condition (it never silently succeeds), and on an existing row deletes that
row outright and returns the parent cart. -/
theorem removeItem_not_found (db : DB) (id cartId : String) :
    (cartItemFindUnique db id cartId = none → removeItem db id cartId = none) ∧
    (∀ it, cartItemFindUnique db id cartId = some it → ItemKeyUnique db →
      ∃ cart db2, removeItem db id cartId = some (cart, db2) ∧ cart.id = cartId ∧
        cartItemFindUnique db2 id cartId = none ∧
        db2.items.length + 1 = db.items.length) := by
  constructor
  · intro h
    simp [removeItem, h]
  · intro it h hu
    have hfl : db.items.find? (fun x => x.id == id && x.cartId == cartId) = some it := h
    have hpred := List.find?_some hfl
    have hcartid : it.cartId = cartId := beq_iff_eq.mp ((Bool.and_eq_true _ _).mp hpred).2
    have hstep : removeItem db id cartId =
        some (findOrCreateCart
          { db with items := db.items.eraseP (fun x => x.id == id && x.cartId == cartId) }
          it.cartId) := by
      simp only [removeItem, h]
    refine ⟨_, _, by rw [hstep], ?_, ?_, ?_⟩
    · rw [findOrCreateCart_id, hcartid]
    · simp only [cartItemFindUnique, findOrCreateCart_items]
      refine find?_eraseP_of_pairwise _ _ ?_ db.items hu
      intro a b ha hb hr
      rcases (Bool.and_eq_true _ _).mp ha with ⟨ha1, ha2⟩
      rcases (Bool.and_eq_true _ _).mp hb with ⟨hb1, hb2⟩
      exact hr ⟨(beq_iff_eq.mp ha1).trans (beq_iff_eq.mp hb1).symm,
        (beq_iff_eq.mp ha2).trans (beq_iff_eq.mp hb2).symm⟩
    · rw [findOrCreateCart_items]
      show (db.items.eraseP (fun x => x.id == id && x.cartId == cartId)).length + 1
        = db.items.length
      have hm := List.mem_of_find?_eq_some hfl
      rw [List.length_eraseP_of_mem hm hpred]
      have hlen : 0 < db.items.length := List.length_pos_of_mem hm
      omega

/-- Witness for C9: removing from the empty store fails, and removing the
only row of `dbOneItemEx` deletes it and returns cart `c1`. -/
theorem removeItem_not_found_witness :
    removeItem dbEmptyEx "p1" "c1" = none ∧
    (∃ cart db2, removeItem dbOneItemEx "p1" "c1" = some (cart, db2) ∧ cart.id = "c1" ∧
      cartItemFindUnique db2 "p1" "c1" = none ∧
      db2.items.length + 1 = dbOneItemEx.items.length) := by
  constructor
  · exact (removeItem_not_found dbEmptyEx "p1" "c1").1 rfl
  · exact (removeItem_not_found dbOneItemEx "p1" "c1").2 tamperedItemEx (by decide)
      (by simp [ItemKeyUnique, dbOneItemEx])

end OneWeek
